import Mathlib

/-!
Shallow embedding of the Jupiter aggregator-API client and swap orchestrator
(`src/jupiter_client.rs`, `src/types.rs`) of the solana-jupiter-arbitrage-bot
repository, together with theorems settling the specification claims.

Modelling conventions:
* Rust `u64`/`u16`/`u8`/`u32` fields are modelled as `Nat`; the only place an
  integer-width conversion matters is the `as u16` cast in `execute_swap`,
  which is modelled explicitly (`castF64toU16`, Rust float-to-int `as` casts
  saturate and truncate toward zero, mapping NaN to 0).
* Rust `f64` is modelled by `F64v`: either NaN or an exact rational.
  Arithmetic on finite values is modelled exactly (no rounding error); the
  claims settled here do not depend on rounding of binary floating point.
  Infinities are not modelled.
* Network I/O is modelled by passing in the outcome of the HTTP round trip
  (`HttpOutcome`): either a transport-level failure or a response carrying the
  status code, the `retry-after` header (already converted to a string, i.e.
  after `to_str().ok()`), the body text, and the result of JSON-decoding the
  body into the expected schema type.
* `anyhow::Result` is modelled as `Except JupErr`; the distinct error
  provenances (transport, API status, JSON decode, numeric parse) are tagged.
* Logging statements (`debug!`, `error!`, `info!`) have no observable effect
  and are omitted.
-/

/-- Rust `f64` values, modelled as NaN or an exact rational (infinities are
not modelled; finite arithmetic is exact). -/
inductive F64v where
  | nan : F64v
  | fin : ℚ → F64v
deriving DecidableEq, Repr

/-- Multiplication of modelled `f64` values: NaN is absorbing, finite values
multiply exactly. -/
def F64v.mul : F64v → F64v → F64v
  | .nan, _ => .nan
  | _, .nan => .nan
  | .fin a, .fin b => .fin (a * b)

/-- Truncation of a rational toward zero, clamped below at 0, as a `Nat`:
for `q ≥ 0` this is `⌊q⌋₊`, for `q < 0` it is `0`.  Written with `Nat`
division so it evaluates by kernel reduction. -/
def ratFloorNat (q : ℚ) : ℕ := q.num.toNat / q.den

/-- Rust `expr as u16` on an `f64` value: NaN becomes 0, the value is
truncated toward zero and saturated into `[0, 65535]`. -/
def castF64toU16 : F64v → ℕ
  | .nan => 0
  | .fin q => min 65535 (ratFloorNat q)

/-- Digit run to a natural number (most significant first). -/
def digitsToNat (cs : List Char) : ℕ :=
  cs.foldl (fun a c => a * 10 + (c.toNat - 48)) 0

/-- Rust `str::parse::<u64>()`: optional leading `+`, a nonempty digit run,
failing on any other character and on overflow past `2^64 - 1`. -/
def parseU64 (s : String) : Option ℕ :=
  let cs := match s.data with
    | '+' :: rest => rest
    | cs => cs
  if cs ≠ [] ∧ cs.all Char.isDigit then
    let v := digitsToNat cs
    if v < 2 ^ 64 then some v else none
  else none

/-- Rust `str::parse::<f64>()`, restricted to plain decimal numerals
`[sign] digits [. digits]` (with at least one digit overall); exotic forms
(exponents, `inf`, `NaN`) are not modelled and any other string fails, as in
the source, where a parse failure aborts `get_quote` with an error. -/
def parseF64Str (s : String) : Option F64v :=
  let (neg, cs) := match s.data with
    | '-' :: rest => (true, rest)
    | '+' :: rest => (false, rest)
    | cs => (false, cs)
  let intPart := cs.takeWhile (· ≠ '.')
  let rest := cs.dropWhile (· ≠ '.')
  let fracPart := match rest with
    | '.' :: fs => some fs
    | [] => some []
    | _ => none
  match fracPart with
  | none => none
  | some fs =>
    if (intPart ++ fs) ≠ [] ∧ intPart.all Char.isDigit ∧ fs.all Char.isDigit then
      let mag : ℚ := (digitsToNat intPart : ℚ) + (digitsToNat fs : ℚ) / (10 ^ fs.length : ℚ)
      some (.fin (if neg then -mag else mag))
    else none

/-- Decimal digits of the fractional part of `q ∈ [0, 1)`, produced by
repeated multiplication by 10, stopping at 0 or when the fuel runs out. -/
def fracDigits : ℚ → ℕ → List Char
  | _, 0 => []
  | q, fuel + 1 =>
    if q = 0 then []
    else
      let q10 := q * 10
      let d := ratFloorNat q10
      Char.ofNat (48 + d) :: fracDigits (q10 - (d : ℚ)) fuel

/-- Decimal rendering of a nonnegative rational (integer part, then the
fractional digits when nonzero), matching Rust's `f64` `Display` on values
whose decimal expansion terminates — e.g. `0.5 ↦ "0.5"`, `86 ↦ "86"`. -/
def formatDecimalNonneg (q : ℚ) : String :=
  let ip := ratFloorNat q
  let frac := q - (ip : ℚ)
  if frac = 0 then toString ip
  else toString ip ++ "." ++ String.mk (fracDigits frac 32)

/-- Rust `f64::to_string()` on a modelled value. -/
def formatF64 : F64v → String
  | .nan => "NaN"
  | .fin q => if q < 0 then "-" ++ formatDecimalNonneg (-q) else formatDecimalNonneg q

/-! ## Schema types (`src/jupiter_client.rs` lines 8–113, `src/types.rs`) -/

/-- `JupiterApiType` (jupiter_client.rs lines 18–25). -/
inductive JupiterApiType where
  | Public | Pro | Lite | SelfHosted | Ultra
deriving DecidableEq, Repr

/-- `IntegratorFee` (jupiter_client.rs lines 27–31); `fee_bps` is a `u16`. -/
structure IntegratorFee where
  fee_bps : ℕ
  fee_account : String
deriving DecidableEq, Repr

/-- `YellowstoneConfig` (jupiter_client.rs lines 33–37). -/
structure YellowstoneConfig where
  grpc_endpoint : String
  x_token : String
deriving DecidableEq, Repr

/-- `JupiterQuoteRequest` (jupiter_client.rs lines 39–50). -/
structure JupiterQuoteRequest where
  input_mint : String
  output_mint : String
  amount : ℕ
  slippage_bps : ℕ
  swap_mode : Option String
  dexes : Option (List String)
  exclude_dexes : Option (List String)
  platform_fee_bps : Option ℕ
  max_accounts : Option ℕ
deriving DecidableEq, Repr

/-- `PlatformFee` (jupiter_client.rs lines 68–72). -/
structure PlatformFee where
  amount : String
  fee_bps : ℕ
deriving DecidableEq, Repr

/-- `SwapInfo` (jupiter_client.rs lines 80–90). -/
structure SwapInfo where
  amm_key : String
  label : String
  input_mint : String
  in_amount : String
  output_mint : String
  out_amount : String
  fee_amount : String
  fee_mint : String
deriving DecidableEq, Repr

/-- `RoutePlan` (jupiter_client.rs lines 74–78). -/
structure RoutePlan where
  swap_info : SwapInfo
  percent : ℕ
deriving DecidableEq, Repr

/-- `JupiterQuoteResponse`, the wire schema of a quote (jupiter_client.rs
lines 52–66); amounts are string-encoded on the wire. -/
structure JupiterQuoteResponse where
  input_mint : String
  in_amount : String
  output_mint : String
  out_amount : String
  other_amount_threshold : String
  swap_mode : String
  slippage_bps : ℕ
  platform_fee : Option PlatformFee
  price_impact_pct : String
  route_plan : List RoutePlan
  context_slot : ℕ
  time_taken : F64v
deriving DecidableEq, Repr

/-- `JupiterSwapRequest` (jupiter_client.rs lines 92–104). -/
structure JupiterSwapRequest where
  quote_response : JupiterQuoteResponse
  user_public_key : String
  dynamic_compute_unit_limit : Option Bool
  prioritization_fee_lamports : Option ℕ
  as_legacy_transaction : Option Bool
  use_shared_accounts : Option Bool
  fee_account : Option String
  tracking_account : Option String
  compute_unit_price_micro_lamports : Option ℕ
  as_versioned_transaction : Option Bool
deriving DecidableEq, Repr

/-- `JupiterSwapResponse` (jupiter_client.rs lines 106–113). -/
structure JupiterSwapResponse where
  swap_transaction : String
  last_valid_block_height : ℕ
  prioritization_fee_lamports : ℕ
  compute_unit_limit : ℕ
  prioritization_fee_lamports_per_cu : ℕ
deriving DecidableEq, Repr

/-- `TokenInfo` (jupiter_client.rs lines 563–573); the opaque
`serde_json::Value` extension blob is modelled as a raw string. -/
structure TokenInfo where
  address : String
  chain_id : ℕ
  decimals : ℕ
  name : String
  symbol : String
  logo_uri : Option String
  tags : List String
  extensions : Option String
deriving DecidableEq, Repr

/-- The internal `JupiterQuote` (types.rs lines 61–72): amounts parsed to
`u64`, price impact parsed to `f64`. -/
structure JupiterQuote where
  input_mint : String
  in_amount : ℕ
  output_mint : String
  out_amount : ℕ
  price_impact_pct : F64v
  route_plan : List RoutePlan
  context_slot : ℕ
  time_taken : F64v
  slippage_bps : ℕ
deriving DecidableEq, Repr

/-- The internal `JupiterSwap` (types.rs lines 92–98). -/
structure JupiterSwap where
  swap_transaction : String
  last_valid_block_height : ℕ
  prioritization_fee_lamports : ℕ
  compute_unit_limit : ℕ
deriving DecidableEq, Repr

/-- The orchestrator's inbound intent `SwapRequest` (types.rs lines 100–111);
`slippage` is an `f64` percentage. -/
structure SwapRequest where
  input_mint : String
  output_mint : String
  amount : ℕ
  user_public_key : String
  slippage : F64v
  priority_fee : ℕ
  allowed_dexes : Option (List String)
  excluded_dexes : Option (List String)
  use_jupiter : Bool
deriving DecidableEq, Repr

/-- The orchestrator's outbound `SwapResponse` (types.rs lines 113–123);
`actual_profit` and `gas_used` are `f64`, `execution_time` an `i64`. -/
structure SwapResponse where
  transaction : String
  success : Bool
  error_message : String
  actual_profit : F64v
  gas_used : F64v
  execution_time : ℤ
  bundle_id : String
  quote : Option JupiterQuote
deriving DecidableEq, Repr

/-! ## Network model and error taxonomy -/

/-- Decidable equality for `Except`, needed to evaluate concrete
response fixtures. -/
instance exceptDecEq {ε α : Type} [DecidableEq ε] [DecidableEq α] :
    DecidableEq (Except ε α)
  | .error a, .error b =>
    if h : a = b then .isTrue (by rw [h])
    else .isFalse (by intro hc; cases hc; exact h rfl)
  | .error _, .ok _ => .isFalse (by intro hc; cases hc)
  | .ok _, .error _ => .isFalse (by intro hc; cases hc)
  | .ok a, .ok b =>
    if h : a = b then .isTrue (by rw [h])
    else .isFalse (by intro hc; cases hc; exact h rfl)

/-- The observable outcome of one HTTP round trip, decoded against the
schema type `α` expected by the operation: status code, the `retry-after`
header after `to_str().ok()` (`none` when absent or not valid text), the body
text, and the result of `response.json::<α>()`. -/
structure HttpResponse (α : Type) where
  status : ℕ
  retry_after : Option String
  body : String
  decoded : Except String α
deriving DecidableEq, Repr

/-- Either a transport-level failure (the `send().await?` step) or a
received response. -/
inductive HttpOutcome (α : Type) where
  | sendErr : String → HttpOutcome α
  | got : HttpResponse α → HttpOutcome α
deriving DecidableEq, Repr

/-- Errors surfaced through `anyhow::Result`, tagged by provenance:
transport failure, an `anyhow!`-constructed API error message, a JSON decode
failure, or a numeric parse failure of a wire amount field. -/
inductive JupErr where
  | transport : String → JupErr
  | api : String → JupErr
  | decode : String → JupErr
  | parse : String → JupErr
deriving DecidableEq, Repr

/-- `reqwest::StatusCode::is_success()`: `2xx`. -/
def isSuccessStatus (status : ℕ) : Bool := 200 ≤ status && status < 300

/-- The Error Classifier `handle_error_response` (jupiter_client.rs lines
261–313) as a pure function of the response's status, `retry-after` header
and body text (logging side effects omitted; the catch-all arm renders the
status code numerically). -/
def handle_error_response (status : ℕ) (retry_after : Option String)
    (body : String) : String :=
  match status with
  | 400 => "Bad Request (400): " ++ body ++ ". Check your input parameters."
  | 401 => "Unauthorized (401): " ++ body ++ ". Check your API key and permissions."
  | 403 => "Forbidden (403): " ++ body ++ ". API access denied or rate limited."
  | 404 => "Not Found (404): " ++ body ++ ". Endpoint or resource not found."
  | 429 =>
    let ra := retry_after.getD "unknown"
    "Rate Limited (429): " ++ body ++ ". Retry after " ++ ra ++ " seconds."
  | 500 => "Internal Server Error (500): " ++ body ++ ". Jupiter API server error."
  | 502 => "Bad Gateway (502): " ++ body ++ ". Upstream server error."
  | 503 => "Service Unavailable (503): " ++ body ++ ". Jupiter API temporarily unavailable."
  | _ => "HTTP " ++ toString status ++ ": " ++ body

/-! ## Endpoint operations (jupiter_client.rs lines 226–362) -/

/-- `get_quote` (jupiter_client.rs lines 226–259): on a non-success status
the raw response is classified by `handle_error_response` and the call fails
with that diagnostic; on success the wire response is normalized into a
`JupiterQuote`, parsing the string-encoded `in_amount`, `out_amount` and
`price_impact_pct` fields (a parse failure aborts with an error via `?`). -/
def get_quote (outcome : HttpOutcome JupiterQuoteResponse)
    (_request : JupiterQuoteRequest) : Except JupErr JupiterQuote :=
  match outcome with
  | .sendErr e => .error (.transport e)
  | .got r =>
    if !isSuccessStatus r.status then
      .error (.api ("Jupiter quote request failed: "
        ++ handle_error_response r.status r.retry_after r.body))
    else
      match r.decoded with
      | .error e => .error (.decode e)
      | .ok qr =>
        match parseU64 qr.in_amount with
        | none => .error (.parse qr.in_amount)
        | some inAmt =>
          match parseU64 qr.out_amount with
          | none => .error (.parse qr.out_amount)
          | some outAmt =>
            match parseF64Str qr.price_impact_pct with
            | none => .error (.parse qr.price_impact_pct)
            | some pip =>
              .ok { input_mint := qr.input_mint
                    in_amount := inAmt
                    output_mint := qr.output_mint
                    out_amount := outAmt
                    price_impact_pct := pip
                    route_plan := qr.route_plan
                    context_slot := qr.context_slot
                    time_taken := qr.time_taken
                    slippage_bps := qr.slippage_bps }

/-- `get_swap_transaction` (jupiter_client.rs lines 315–342): on a
non-success status it fails with the *raw* body text (no Error Classifier);
on success it copies the response fields into a `JupiterSwap`. -/
def get_swap_transaction (outcome : HttpOutcome JupiterSwapResponse)
    (_request : JupiterSwapRequest) : Except JupErr JupiterSwap :=
  match outcome with
  | .sendErr e => .error (.transport e)
  | .got r =>
    if !isSuccessStatus r.status then
      .error (.api ("Jupiter swap request failed: " ++ r.body))
    else
      match r.decoded with
      | .error e => .error (.decode e)
      | .ok sr =>
        .ok { swap_transaction := sr.swap_transaction
              last_valid_block_height := sr.last_valid_block_height
              prioritization_fee_lamports := sr.prioritization_fee_lamports
              compute_unit_limit := sr.compute_unit_limit }

/-- `get_tokens` (jupiter_client.rs lines 344–362): on a non-success status
it fails with the *raw* body text (no Error Classifier); on success it
returns the decoded token map (the `HashMap` is modelled as an association
list). -/
def get_tokens (outcome : HttpOutcome (List (String × TokenInfo))) :
    Except JupErr (List (String × TokenInfo)) :=
  match outcome with
  | .sendErr e => .error (.transport e)
  | .got r =>
    if !isSuccessStatus r.status then
      .error (.api ("Jupiter tokens request failed: " ++ r.body))
    else
      match r.decoded with
      | .error e => .error (.decode e)
      | .ok tokens => .ok tokens

/-! ## Swap orchestrator `execute_swap` (jupiter_client.rs lines 502–561) -/

/-- The `JupiterQuoteRequest` derived from the intent (jupiter_client.rs
lines 507–517); `slippage_bps` is `(swap_request.slippage * 100.0) as u16`. -/
def mkQuoteRequest (swap_request : SwapRequest) : JupiterQuoteRequest :=
  { input_mint := swap_request.input_mint
    output_mint := swap_request.output_mint
    amount := swap_request.amount
    slippage_bps := castF64toU16 (F64v.mul swap_request.slippage (.fin 100))
    swap_mode := some "ExactIn"
    dexes := swap_request.allowed_dexes
    exclude_dexes := swap_request.excluded_dexes
    platform_fee_bps := none
    max_accounts := some 64 }

/-- The `JupiterQuoteResponse` that `execute_swap` reconstructs from the
internal quote and embeds in the swap-build request (jupiter_client.rs lines
523–536): amounts are re-rendered with `to_string()`, while
`other_amount_threshold` is hardcoded to `"0"`, `swap_mode` to `"ExactIn"`
and `platform_fee` to `None`. -/
def embeddedQuoteResponse (quote : JupiterQuote) : JupiterQuoteResponse :=
  { input_mint := quote.input_mint
    in_amount := toString quote.in_amount
    output_mint := quote.output_mint
    out_amount := toString quote.out_amount
    other_amount_threshold := "0"
    swap_mode := "ExactIn"
    slippage_bps := quote.slippage_bps
    platform_fee := none
    price_impact_pct := formatF64 quote.price_impact_pct
    route_plan := quote.route_plan
    context_slot := quote.context_slot
    time_taken := quote.time_taken }

/-- The `JupiterSwapRequest` built by `execute_swap` (jupiter_client.rs
lines 522–546). -/
def mkJupiterSwapRequest (quote : JupiterQuote) (swap_request : SwapRequest) :
    JupiterSwapRequest :=
  { quote_response := embeddedQuoteResponse quote
    user_public_key := swap_request.user_public_key
    dynamic_compute_unit_limit := some true
    prioritization_fee_lamports := some swap_request.priority_fee
    as_legacy_transaction := some false
    use_shared_accounts := some true
    fee_account := none
    tracking_account := none
    compute_unit_price_micro_lamports := none
    as_versioned_transaction := some true }

/-- The two remote round trips `execute_swap` may perform, supplied by the
environment. -/
structure SwapEnv where
  quote_api : HttpOutcome JupiterQuoteResponse
  swap_api : HttpOutcome JupiterSwapResponse
deriving DecidableEq, Repr

/-- One remote call issued by `execute_swap`, with the request it carried. -/
inductive RemoteCall where
  | quote : JupiterQuoteRequest → RemoteCall
  | swap : JupiterSwapRequest → RemoteCall
deriving DecidableEq, Repr

/-- `execute_swap` (jupiter_client.rs lines 502–560), returning both the
result and the ordered trace of remote calls issued.  On success the
response carries the opaque transaction, `gas_used` as the build response's
`prioritization_fee_lamports as f64 / 1_000_000_000.0`, placeholder outcome
fields, and the originating quote. -/
def execute_swap (env : SwapEnv) (swap_request : SwapRequest) :
    Except JupErr SwapResponse × List RemoteCall :=
  let quote_request := mkQuoteRequest swap_request
  match get_quote env.quote_api quote_request with
  | .error e => (.error e, [.quote quote_request])
  | .ok quote =>
    let swap_request_jupiter := mkJupiterSwapRequest quote swap_request
    match get_swap_transaction env.swap_api swap_request_jupiter with
    | .error e => (.error e, [.quote quote_request, .swap swap_request_jupiter])
    | .ok swap =>
      (.ok { transaction := swap.swap_transaction
             success := true
             error_message := ""
             actual_profit := .fin 0
             gas_used := .fin ((swap.prioritization_fee_lamports : ℚ) / 1000000000)
             execution_time := 0
             bundle_id := ""
             quote := some quote },
       [.quote quote_request, .swap swap_request_jupiter])

/-! ## Transport Profile Builder `new_with_config`
(jupiter_client.rs lines 115–224) -/

/-- Validity of one character of a header value, following the `http`
crate's `HeaderValue` byte check `b >= 32 && b != 127 || b == b'\t'`:
a character is valid iff every byte of its UTF-8 encoding is valid.  ASCII
characters encode as themselves; every byte of a multi-byte UTF-8 encoding
is `≥ 0x80`, hence valid, so the check reduces to a per-character test. -/
def isValidHeaderChar (c : Char) : Bool :=
  c.toNat == 9 || (32 ≤ c.toNat && c.toNat != 127)

/-- Validity of a whole header value string (`HeaderValue::from_str`
succeeds iff every character is valid). -/
def isValidHeaderValue (s : String) : Bool :=
  s.data.all isValidHeaderChar

/-- The tier marker string (jupiter_client.rs lines 138–144). -/
def apiTypeHeader : JupiterApiType → String
  | .Pro => "pro"
  | .Lite => "lite"
  | .SelfHosted => "self-hosted"
  | .Ultra => "ultra"
  | .Public => "public"

/-- `HeaderMap::insert`: replace an existing entry of the same name, else
append (the names inserted by this client are pairwise distinct constants,
so replacement never actually triggers). -/
def insertHeader (hs : List (String × String)) (name value : String) :
    List (String × String) :=
  if hs.any (fun p => p.1 == name) then
    hs.map (fun p => if p.1 == name then (name, value) else p)
  else hs ++ [(name, value)]

/-- The header (name, value) pairs that `new_with_config` inserts, in
insertion order (jupiter_client.rs lines 127–160): bearer credential iff an
API key is supplied, the tier marker always, the integrator-fee pair iff a
fee config is supplied, the Yellowstone pair iff a feed config is supplied,
and content-type plus client identifier always. -/
def headerCandidates (api_key : Option String) (api_type : JupiterApiType)
    (integrator_fee : Option IntegratorFee)
    (yellowstone_config : Option YellowstoneConfig) : List (String × String) :=
  (match api_key with
   | some key => [("Authorization", "Bearer " ++ key)]
   | none => []) ++
  [("X-API-Type", apiTypeHeader api_type)] ++
  (match integrator_fee with
   | some fee => [("X-Integrator-Fee", toString fee.fee_bps),
                  ("X-Integrator-Account", fee.fee_account)]
   | none => []) ++
  (match yellowstone_config with
   | some y => [("X-Yellowstone-Endpoint", y.grpc_endpoint),
                ("X-Yellowstone-Token", y.x_token)]
   | none => []) ++
  [("Content-Type", "application/json"),
   ("User-Agent", "Jupiter-Arbitrage-Bot/1.0")]

/-- The construction-time failure: in the source each header value is built
with `.parse().unwrap()`, so an invalid value panics inside
`new_with_config`; the panic is modelled as this error. -/
inductive ConfigurationError where
  | invalidHeaderValue : ConfigurationError
deriving DecidableEq, Repr

/-- The constructed client handle (jupiter_client.rs lines 8–16): the
`reqwest::Client` is represented by its observable configuration, the
default header map (the fixed 30s timeout is a constant and not modelled). -/
structure JupiterClient where
  headers : List (String × String)
  base_url : String
  api_key : Option String
  api_type : JupiterApiType
  integrator_fee : Option IntegratorFee
  yellowstone_config : Option YellowstoneConfig
deriving DecidableEq, Repr

/-- `new_with_config` (jupiter_client.rs lines 120–176): builds the default
header map, panicking (modelled as `ConfigurationError`) if any header value
fails `HeaderValue` construction, and otherwise returns the client handle.
The source panics at the first invalid `.parse().unwrap()`; since the only
observable outcomes are "panics during construction" and "returns a client
with these headers", the sequential unwraps are modelled as one validity
check over all candidate values. -/
def new_with_config (base_url : String) (api_key : Option String)
    (api_type : JupiterApiType) (integrator_fee : Option IntegratorFee)
    (yellowstone_config : Option YellowstoneConfig) :
    Except ConfigurationError JupiterClient :=
  let candidates := headerCandidates api_key api_type integrator_fee yellowstone_config
  if candidates.all (fun p => isValidHeaderValue p.2) then
    .ok { headers := candidates.foldl (fun hs p => insertHeader hs p.1 p.2) []
          base_url := base_url
          api_key := api_key
          api_type := api_type
          integrator_fee := integrator_fee
          yellowstone_config := yellowstone_config }
  else .error .invalidHeaderValue

/-- `new` (jupiter_client.rs lines 116–118). -/
def JupiterClient.new (base_url : String) (api_key : Option String) :
    Except ConfigurationError JupiterClient :=
  new_with_config base_url api_key .Public none none

/-! ## Concrete fixtures used by counterexamples and witnesses -/

/-- A one-hop route used by the quote fixtures. -/
def sampleRoutePlan : RoutePlan :=
  { swap_info :=
      { amm_key := "AmmKey1"
        label := "Orca"
        input_mint := "MintA"
        in_amount := "1000"
        output_mint := "MintB"
        out_amount := "2000"
        fee_amount := "1"
        fee_mint := "MintA" }
    percent := 100 }

/-- Wire quote fixture for C1: the venue returned a nonzero
`other_amount_threshold` and a platform fee. -/
def c1_wire : JupiterQuoteResponse :=
  { input_mint := "MintA"
    in_amount := "1000"
    output_mint := "MintB"
    out_amount := "2000"
    other_amount_threshold := "7"
    swap_mode := "ExactIn"
    slippage_bps := 50
    platform_fee := some { amount := "5", fee_bps := 10 }
    price_impact_pct := "0.5"
    route_plan := [sampleRoutePlan]
    context_slot := 3
    time_taken := .fin 1 }

/-- The internal quote `get_quote` produces from `c1_wire`. -/
def c1_quote : JupiterQuote :=
  { input_mint := "MintA"
    in_amount := 1000
    output_mint := "MintB"
    out_amount := 2000
    price_impact_pct := .fin (1/2)
    route_plan := [sampleRoutePlan]
    context_slot := 3
    time_taken := .fin 1
    slippage_bps := 50 }

/-- Swap intent fixture for C1. -/
def c1_sr : SwapRequest :=
  { input_mint := "MintA"
    output_mint := "MintB"
    amount := 1000
    user_public_key := "Signer1"
    slippage := .fin (1/2)
    priority_fee := 5000
    allowed_dexes := none
    excluded_dexes := none
    use_jupiter := true }

/-- Environment for C1: the quote call succeeds with `c1_wire`, the build
call fails at transport level (the build request still appears in the
trace). -/
def c1_env : SwapEnv :=
  { quote_api := .got { status := 200, retry_after := none, body := "", decoded := .ok c1_wire }
    swap_api := .sendErr "down" }

/-- Counterexample intent for C2: slippage percent `111/128 = 0.8671875`,
exactly representable as an `f64` (and so is its product with 100). -/
def c2_sr : SwapRequest :=
  { input_mint := "MintA"
    output_mint := "MintB"
    amount := 1000
    user_public_key := "Signer1"
    slippage := .fin (111/128)
    priority_fee := 0
    allowed_dexes := none
    excluded_dexes := none
    use_jupiter := true }

/-- Witness intent for the amended C2: slippage percent `0.5`. -/
def c2w_sr : SwapRequest :=
  { input_mint := "MintA"
    output_mint := "MintB"
    amount := 1000
    user_public_key := "Signer1"
    slippage := .fin (1/2)
    priority_fee := 0
    allowed_dexes := none
    excluded_dexes := none
    use_jupiter := true }

/-- Intent fixture for C3. -/
def c3_sr : SwapRequest :=
  { input_mint := "MintA"
    output_mint := "MintB"
    amount := 42
    user_public_key := "Signer1"
    slippage := .fin 1
    priority_fee := 7
    allowed_dexes := none
    excluded_dexes := none
    use_jupiter := true }

/-- Environment for C3: the quote round trip fails at transport level. -/
def c3_env : SwapEnv :=
  { quote_api := .sendErr "boom"
    swap_api := .sendErr "unreachable" }

/-- A quote request fixture (used where an operation takes a request whose
content does not influence the modelled behaviour). -/
def c4_quote_req : JupiterQuoteRequest :=
  { input_mint := "MintA"
    output_mint := "MintB"
    amount := 1000
    slippage_bps := 50
    swap_mode := some "ExactIn"
    dexes := none
    exclude_dexes := none
    platform_fee_bps := none
    max_accounts := some 64 }

/-- A swap-build request fixture for C4. -/
def c4_swap_req : JupiterSwapRequest :=
  { quote_response := c1_wire
    user_public_key := "Signer1"
    dynamic_compute_unit_limit := some true
    prioritization_fee_lamports := some 5000
    as_legacy_transaction := some false
    use_shared_accounts := some true
    fee_account := none
    tracking_account := none
    compute_unit_price_micro_lamports := none
    as_versioned_transaction := some true }

/-- Wire quote fixture for C5: a syntactically valid quote whose
`route_plan` is empty. -/
def c5_wire : JupiterQuoteResponse :=
  { input_mint := "MintA"
    in_amount := "1000"
    output_mint := "MintB"
    out_amount := "2000"
    other_amount_threshold := "0"
    swap_mode := "ExactIn"
    slippage_bps := 50
    platform_fee := none
    price_impact_pct := "0.5"
    route_plan := []
    context_slot := 3
    time_taken := .fin 1 }

/-- The internal quote `get_quote` produces from `c5_wire`. -/
def c5_quote : JupiterQuote :=
  { input_mint := "MintA"
    in_amount := 1000
    output_mint := "MintB"
    out_amount := 2000
    price_impact_pct := .fin (1/2)
    route_plan := []
    context_slot := 3
    time_taken := .fin 1
    slippage_bps := 50 }

/-- Build response fixture for C9: fee of 2 000 000 smallest units. -/
def c9_swap_wire : JupiterSwapResponse :=
  { swap_transaction := "b64tx"
    last_valid_block_height := 999
    prioritization_fee_lamports := 2000000
    compute_unit_limit := 1400000
    prioritization_fee_lamports_per_cu := 10 }

/-- Environment for C9: both round trips succeed. -/
def c9_env : SwapEnv :=
  { quote_api := .got { status := 200, retry_after := none, body := "", decoded := .ok c1_wire }
    swap_api := .got { status := 200, retry_after := none, body := "", decoded := .ok c9_swap_wire } }

/-- Witness intent for C10: slippage percent 656 exceeds 655.35. -/
def c10_sr : SwapRequest :=
  { input_mint := "MintA"
    output_mint := "MintB"
    amount := 1000
    user_public_key := "Signer1"
    slippage := .fin 656
    priority_fee := 0
    allowed_dexes := none
    excluded_dexes := none
    use_jupiter := true }

/-- The client that `new_with_config` constructs for the C8 witness
arguments (credential and feed config supplied, no integrator fee). -/
def c8_client : JupiterClient :=
  { headers := [("Authorization", "Bearer key1"), ("X-API-Type", "pro"),
      ("X-Yellowstone-Endpoint", "grpc.example"), ("X-Yellowstone-Token", "tok"),
      ("Content-Type", "application/json"), ("User-Agent", "Jupiter-Arbitrage-Bot/1.0")]
    base_url := "https://api.example"
    api_key := some "key1"
    api_type := .Pro
    integrator_fee := none
    yellowstone_config := some { grpc_endpoint := "grpc.example", x_token := "tok" } }

/-! ## Helper lemmas -/

/-- `ratFloorNat` agrees with the natural floor. -/
theorem ratFloorNat_eq_floor (q : ℚ) : ratFloorNat q = ⌊q⌋₊ := by
  rcases le_or_lt 0 q with hq | hq
  · have hnum : ((q.num.toNat : ℤ)) = q.num :=
      Int.toNat_of_nonneg (Rat.num_nonneg.mpr hq)
    have hcast : ((q.num.toNat : ℚ)) = ((q.num : ℤ) : ℚ) := by
      exact_mod_cast congrArg (fun z : ℤ => (z : ℚ)) hnum
    have hval : ((q.num.toNat : ℚ)) / (q.den : ℚ) = q := by
      rw [hcast]; exact Rat.num_div_den q
    calc ratFloorNat q = q.num.toNat / q.den := rfl
      _ = ⌊((q.num.toNat : ℚ)) / (q.den : ℚ)⌋₊ := by
          rw [Nat.floor_div_nat, Nat.floor_natCast]
      _ = ⌊q⌋₊ := by rw [hval]
  · have hnum : q.num.toNat = 0 := by
      have : q.num < 0 := by
        by_contra hcon
        exact absurd (Rat.num_nonneg.mp (not_lt.mp hcon)) (not_le.mpr hq)
      omega
    have : ratFloorNat q = 0 := by unfold ratFloorNat; rw [hnum]; simp
    rw [this, Nat.floor_of_nonpos (le_of_lt hq)]

/-- The modelled `as u16` cast never exceeds the `u16` range. -/
theorem castF64toU16_le (x : F64v) : castF64toU16 x ≤ 65535 := by
  cases x with
  | nan => simp [castF64toU16]
  | fin q => simp [castF64toU16]

/-- Saturation: values at or above 65535 cast to 65535. -/
theorem castF64toU16_sat {q : ℚ} (h : 65535 ≤ q) :
    castF64toU16 (.fin q) = 65535 := by
  show min 65535 (ratFloorNat q) = 65535
  rw [ratFloorNat_eq_floor]
  exact min_eq_left (Nat.le_floor (by exact_mod_cast h))

/-- Nonpositive values cast to 0. -/
theorem castF64toU16_nonpos {q : ℚ} (h : q ≤ 0) :
    castF64toU16 (.fin q) = 0 := by
  show min 65535 (ratFloorNat q) = 0
  rw [ratFloorNat_eq_floor, Nat.floor_of_nonpos h]
  simp

/-- In-range values cast to their floor (truncation toward zero). -/
theorem castF64toU16_of_le {q : ℚ} (h : q ≤ 65535) :
    castF64toU16 (.fin q) = ⌊q⌋₊ := by
  show min 65535 (ratFloorNat q) = ⌊q⌋₊
  rw [ratFloorNat_eq_floor]
  refine min_eq_right ?_
  calc ⌊q⌋₊ ≤ ⌊(65535 : ℚ)⌋₊ := Nat.floor_le_floor h
    _ = 65535 := by rw [show ((65535 : ℚ)) = ((65535 : ℕ) : ℚ) by norm_num, Nat.floor_natCast]

/-- Concrete evaluation: `"0.5"` parses to the rational one half. -/
theorem parseF64Str_half : parseF64Str "0.5" = some (.fin (1/2)) := by
  simp [parseF64Str, digitsToNat]
  norm_num

/-- Concrete evaluation of the fractional-digit expansion of one half. -/
theorem fracDigits_half : fracDigits (1/2) 32 = ['5'] := by
  rw [fracDigits]; norm_num [ratFloorNat]; simp; simp [fracDigits]

/-- Concrete evaluation: one half renders as `"0.5"`. -/
theorem formatF64_half : formatF64 (.fin (1/2)) = "0.5" := by
  rw [formatF64, if_neg (by norm_num), formatDecimalNonneg]
  norm_num [ratFloorNat]
  rw [fracDigits_half]
  rfl

/-- Inversion of a successful `get_quote`: the status was a success, the
amount fields parsed, and the quote is the field-by-field normalization of
the decoded wire response. -/
theorem get_quote_ok_inversion {r : HttpResponse JupiterQuoteResponse}
    {req : JupiterQuoteRequest} {W : JupiterQuoteResponse} {q : JupiterQuote}
    (hdec : r.decoded = .ok W) (hok : get_quote (.got r) req = .ok q) :
    isSuccessStatus r.status = true ∧
    ∃ inAmt outAmt pip,
      parseU64 W.in_amount = some inAmt ∧
      parseU64 W.out_amount = some outAmt ∧
      parseF64Str W.price_impact_pct = some pip ∧
      q = { input_mint := W.input_mint
            in_amount := inAmt
            output_mint := W.output_mint
            out_amount := outAmt
            price_impact_pct := pip
            route_plan := W.route_plan
            context_slot := W.context_slot
            time_taken := W.time_taken
            slippage_bps := W.slippage_bps } := by
  simp only [get_quote, hdec] at hok
  cases hs : isSuccessStatus r.status with
  | false => rw [hs] at hok; simp at hok
  | true =>
    rw [hs] at hok
    simp only [Bool.not_true, Bool.false_eq_true, if_false] at hok
    refine ⟨rfl, ?_⟩
    cases hin : parseU64 W.in_amount with
    | none => rw [hin] at hok; simp at hok
    | some inAmt =>
      rw [hin] at hok
      cases hout : parseU64 W.out_amount with
      | none => rw [hout] at hok; simp at hok
      | some outAmt =>
        rw [hout] at hok
        cases hpip : parseF64Str W.price_impact_pct with
        | none => rw [hpip] at hok; simp at hok
        | some pip =>
          rw [hpip] at hok
          simp only [Except.ok.injEq] at hok
          exact ⟨inAmt, outAmt, pip, rfl, rfl, rfl, hok.symm⟩

/-- Concrete evaluation: `get_quote` on the `c1_wire` fixture succeeds with
`c1_quote`, for any request. -/
theorem get_quote_c1_wire (req : JupiterQuoteRequest) :
    get_quote (.got ⟨200, none, "", .ok c1_wire⟩) req = .ok c1_quote := by
  have h1 : parseU64 c1_wire.in_amount = some 1000 := by decide
  have h2 : parseU64 c1_wire.out_amount = some 2000 := by decide
  have h3 : parseF64Str c1_wire.price_impact_pct = some (.fin (1/2)) :=
    parseF64Str_half
  simp only [get_quote, h1, h2, h3]
  simp [c1_wire, c1_quote, isSuccessStatus]

/-- Membership in the names of `insertHeader hs n v`: the inserted name is
present, and all previously present names survive (insertion either
replaces in place or appends). -/
theorem mem_insertHeader_names (hs : List (String × String)) (n v m : String) :
    m ∈ (insertHeader hs n v).map Prod.fst ↔ m ∈ hs.map Prod.fst ∨ m = n := by
  unfold insertHeader
  by_cases h : hs.any (fun p => p.1 == n)
  · rw [if_pos h]
    rw [List.any_eq_true] at h
    obtain ⟨p0, hp0, hp0n⟩ := h
    rw [beq_iff_eq] at hp0n
    simp only [List.map_map, List.mem_map, Function.comp]
    constructor
    · rintro ⟨p, hp, hm⟩
      by_cases hpn : p.1 == n
      · rw [if_pos hpn] at hm
        exact Or.inr hm.symm
      · rw [if_neg hpn] at hm
        exact Or.inl ⟨p, hp, hm⟩
    · rintro (⟨p, hp, hm⟩ | rfl)
      · by_cases hpn : p.1 == n
        · refine ⟨p0, hp0, ?_⟩
          rw [if_pos (by rw [beq_iff_eq]; exact hp0n)]
          rw [beq_iff_eq] at hpn
          rw [← hm, hpn]
        · exact ⟨p, hp, by rw [if_neg hpn]; exact hm⟩
      · exact ⟨p0, hp0, by rw [if_pos (by rw [beq_iff_eq]; exact hp0n)]⟩
  · rw [if_neg h]
    simp

/-- Names present after folding `insertHeader` over a list of candidates:
exactly the starting names plus the candidate names. -/
theorem mem_foldl_insertHeader (cands : List (String × String))
    (hs : List (String × String)) (m : String) :
    m ∈ ((cands.foldl (fun acc p => insertHeader acc p.1 p.2) hs).map Prod.fst) ↔
      m ∈ hs.map Prod.fst ∨ m ∈ cands.map Prod.fst := by
  induction cands generalizing hs with
  | nil => simp
  | cons c rest ih =>
    simp only [List.foldl_cons]
    rw [ih, mem_insertHeader_names]
    simp only [List.map_cons, List.mem_cons]
    tauto

/-- Concrete evaluation: `get_quote` on the empty-route fixture `c5_wire`
succeeds with `c5_quote`, for any request. -/
theorem get_quote_c5_wire (req : JupiterQuoteRequest) :
    get_quote (.got ⟨200, none, "", .ok c5_wire⟩) req = .ok c5_quote := by
  have h1 : parseU64 c5_wire.in_amount = some 1000 := by decide
  have h2 : parseU64 c5_wire.out_amount = some 2000 := by decide
  have h3 : parseF64Str c5_wire.price_impact_pct = some (.fin (1/2)) :=
    parseF64Str_half
  simp only [get_quote, h1, h2, h3]
  simp [c5_wire, c5_quote, isSuccessStatus]

/-! ## Claim theorems -/

/-- C3: if the get-quote step of `execute_swap` fails, the quote-stage error
is propagated verbatim and the call trace contains only the quote call —
build-swap-transaction is never invoked. -/
theorem c3_quote_failure_no_build (env : SwapEnv) (sr : SwapRequest) (e : JupErr)
    (h : get_quote env.quote_api (mkQuoteRequest sr) = .error e) :
    execute_swap env sr = (.error e, [.quote (mkQuoteRequest sr)]) := by
  simp only [execute_swap]
  rw [h]

/-- Witness for C3 at a concrete transport failure. -/
theorem c3_witness :
    execute_swap c3_env c3_sr =
      (.error (.transport "boom"), [.quote (mkQuoteRequest c3_sr)]) :=
  c3_quote_failure_no_build c3_env c3_sr (.transport "boom") rfl

/-- C7: the Error Classifier surfaces the `retry-after` header value exactly
when present (value `"12"` yields exactly `12` in the diagnostic), and the
literal marker `"unknown"` when absent — never a fabricated number. -/
theorem c7_retry_after_surfaced :
    (∀ body v, handle_error_response 429 (some v) body =
      "Rate Limited (429): " ++ body ++ ". Retry after " ++ v ++ " seconds.") ∧
    (∀ body, handle_error_response 429 none body =
      "Rate Limited (429): " ++ body ++ ". Retry after " ++ "unknown" ++ " seconds.") :=
  ⟨fun _ _ => rfl, fun _ => rfl⟩

/-- C9: a successful `execute_swap` returns the opaque transaction, a
`gas_used` equal to the build fee in smallest units divided by 10⁹, the
placeholder outcome fields (profit 0, execution time 0, empty settlement
identifier), and embeds the full originating quote. -/
theorem c9_swap_response_fields (env : SwapEnv) (sr : SwapRequest)
    (quote : JupiterQuote) (swap : JupiterSwap)
    (hq : get_quote env.quote_api (mkQuoteRequest sr) = .ok quote)
    (hs : get_swap_transaction env.swap_api (mkJupiterSwapRequest quote sr) = .ok swap) :
    (execute_swap env sr).1 = .ok
      { transaction := swap.swap_transaction
        success := true
        error_message := ""
        actual_profit := .fin 0
        gas_used := .fin ((swap.prioritization_fee_lamports : ℚ) / 1000000000)
        execution_time := 0
        bundle_id := ""
        quote := some quote } := by
  simp only [execute_swap, hq, hs]

/-- Witness for C9: build fee 2 000 000 smallest units yields
`gas_used = 0.002`. -/
theorem c9_witness :
    (execute_swap c9_env c1_sr).1 = .ok
      { transaction := "b64tx"
        success := true
        error_message := ""
        actual_profit := .fin 0
        gas_used := .fin (0.002 : ℚ)
        execution_time := 0
        bundle_id := ""
        quote := some c1_quote } := by
  have hq : get_quote c9_env.quote_api (mkQuoteRequest c1_sr) = .ok c1_quote :=
    get_quote_c1_wire _
  have hs : get_swap_transaction c9_env.swap_api (mkJupiterSwapRequest c1_quote c1_sr) = .ok
      { swap_transaction := "b64tx"
        last_valid_block_height := 999
        prioritization_fee_lamports := 2000000
        compute_unit_limit := 1400000 } := rfl
  have h := c9_swap_response_fields c9_env c1_sr c1_quote _ hq hs
  rw [h]
  norm_num

/-- Counterexample to C2: the code truncates `percent * 100` (the Rust `as
u16` cast), it does not round.  At slippage percent `111/128 = 0.8671875`
(exactly representable as an `f64`, with exact product `86.71875`), the code
produces 86 while `round(percent * 100)` is 87. -/
theorem c2_counterexample :
    (mkQuoteRequest c2_sr).slippage_bps = 86 ∧ round ((111 : ℚ)/128 * 100) = 87 := by
  constructor
  · show castF64toU16 (.fin ((111 : ℚ)/128 * 100)) = 86
    rw [castF64toU16_of_le (by norm_num)]
    rw [Nat.floor_eq_iff (by norm_num)]
    norm_num
  · rw [round_eq]
    norm_num [Int.floor_eq_iff]

/-- C2 (amended): for every finite slippage percent in `[0, 100]`, the
`slippage_bps` placed in the quote request is the *truncation*
`⌊percent * 100⌋` (not the rounding). -/
theorem c2_slippage_truncates (sr : SwapRequest) (q : ℚ)
    (hfin : sr.slippage = .fin q) (h0 : 0 ≤ q) (h100 : q ≤ 100) :
    (mkQuoteRequest sr).slippage_bps = ⌊q * 100⌋₊ := by
  show castF64toU16 (F64v.mul sr.slippage (.fin 100)) = ⌊q * 100⌋₊
  rw [hfin]
  show castF64toU16 (.fin (q * 100)) = ⌊q * 100⌋₊
  exact castF64toU16_of_le (by nlinarith)

/-- Witness for the amended C2: slippage percent `0.5` yields 50 bps. -/
theorem c2_witness : (mkQuoteRequest c2w_sr).slippage_bps = 50 := by
  have h := c2_slippage_truncates c2w_sr (1/2) rfl (by norm_num) (by norm_num)
  rw [h]
  rw [show (1 : ℚ)/2 * 100 = 50 by norm_num]
  rw [show ((50 : ℚ)) = ((50 : ℕ) : ℚ) by norm_num, Nat.floor_natCast]

/-- C10: the slippage conversion is total and saturating — the result never
exceeds 65535, a NaN slippage yields 0, a negative slippage yields 0, and
any percent above `655.35 = 13107/20` yields exactly 65535 (no wrap, no
panic: the modelled cast is a total function). -/
theorem c10_slippage_cast_saturates (sr : SwapRequest) :
    (mkQuoteRequest sr).slippage_bps ≤ 65535 ∧
    (sr.slippage = F64v.nan → (mkQuoteRequest sr).slippage_bps = 0) ∧
    (∀ q : ℚ, sr.slippage = .fin q → q < 0 → (mkQuoteRequest sr).slippage_bps = 0) ∧
    (∀ q : ℚ, sr.slippage = .fin q → (13107 : ℚ)/20 < q →
      (mkQuoteRequest sr).slippage_bps = 65535) := by
  refine ⟨?_, ?_, ?_, ?_⟩
  · show castF64toU16 (F64v.mul sr.slippage (.fin 100)) ≤ 65535
    exact castF64toU16_le _
  · intro h
    show castF64toU16 (F64v.mul sr.slippage (.fin 100)) = 0
    rw [h]
    rfl
  · intro q hq hneg
    show castF64toU16 (F64v.mul sr.slippage (.fin 100)) = 0
    rw [hq]
    show castF64toU16 (.fin (q * 100)) = 0
    exact castF64toU16_nonpos (by nlinarith)
  · intro q hq hgt
    show castF64toU16 (F64v.mul sr.slippage (.fin 100)) = 65535
    rw [hq]
    show castF64toU16 (.fin (q * 100)) = 65535
    exact castF64toU16_sat (by nlinarith)

/-- Witness for C10: slippage percent 656 saturates to 65535 bps. -/
theorem c10_witness : (mkQuoteRequest c10_sr).slippage_bps = 65535 :=
  (c10_slippage_cast_saturates c10_sr).2.2.2 656 rfl (by norm_num)

/-- Counterexample to C1: `execute_swap` does *not* embed the quote
unmodified.  On a quote whose wire response carries
`other_amount_threshold = "7"` and a platform fee, the swap-build request in
the call trace embeds a quote response with `other_amount_threshold`
replaced by `"0"` and `platform_fee` replaced by `None` (these fields were
already discarded by `get_quote` and are re-fabricated). -/
theorem c1_counterexample :
    get_quote c1_env.quote_api (mkQuoteRequest c1_sr) = .ok c1_quote ∧
    (execute_swap c1_env c1_sr).2 =
      [.quote (mkQuoteRequest c1_sr), .swap (mkJupiterSwapRequest c1_quote c1_sr)] ∧
    (mkJupiterSwapRequest c1_quote c1_sr).quote_response.other_amount_threshold = "0" ∧
    c1_wire.other_amount_threshold = "7" ∧
    (mkJupiterSwapRequest c1_quote c1_sr).quote_response.platform_fee = none ∧
    c1_wire.platform_fee = some { amount := "5", fee_bps := 10 } := by
  have hq : get_quote c1_env.quote_api (mkQuoteRequest c1_sr) = .ok c1_quote :=
    get_quote_c1_wire _
  refine ⟨hq, ?_, rfl, rfl, rfl, rfl⟩
  simp only [execute_swap, hq]
  rfl

/-- C1 (amended): the quote response embedded in the swap-build request
preserves every field that the internal quote retains (mints, amounts,
slippage bps, price impact, route plan, context slot, latency) whenever the
string renderings round-trip, but `other_amount_threshold` is hardcoded to
`"0"`, `swap_mode` to `"ExactIn"`, and `platform_fee` to `None` rather than
taken from the originating wire response. -/
theorem c1_embedded_quote (r : HttpResponse JupiterQuoteResponse)
    (req : JupiterQuoteRequest) (W : JupiterQuoteResponse) (q : JupiterQuote)
    (hdec : r.decoded = .ok W)
    (hok : get_quote (.got r) req = .ok q)
    (hin : toString q.in_amount = W.in_amount)
    (hout : toString q.out_amount = W.out_amount)
    (hpi : formatF64 q.price_impact_pct = W.price_impact_pct) :
    embeddedQuoteResponse q =
      { W with other_amount_threshold := "0"
               swap_mode := "ExactIn"
               platform_fee := none } := by
  obtain ⟨-, inAmt, outAmt, pip, -, -, -, hq⟩ := get_quote_ok_inversion hdec hok
  subst hq
  simp only [embeddedQuoteResponse] at *
  simp_all

/-- Witness for the amended C1 at the `c1_wire` fixture. -/
theorem c1_witness :
    embeddedQuoteResponse c1_quote =
      { c1_wire with other_amount_threshold := "0"
                     swap_mode := "ExactIn"
                     platform_fee := none } := by
  refine c1_embedded_quote ⟨200, none, "", .ok c1_wire⟩ c4_quote_req c1_wire c1_quote rfl
    (get_quote_c1_wire _) ?_ ?_ ?_
  · decide
  · decide
  · exact formatF64_half

/-- Counterexample to C5: `get_quote` performs no route-plan validation — a
well-formed response whose `route_plan` is the empty sequence is returned as
a successful quote with an empty route plan. -/
theorem c5_counterexample :
    get_quote (.got ⟨200, none, "", .ok c5_wire⟩) c4_quote_req = .ok c5_quote ∧
    c5_quote.route_plan = [] :=
  ⟨get_quote_c5_wire _, rfl⟩

/-- C5 (amended): `get_quote` passes the route plan through unvalidated —
the returned quote's route plan always equals the wire response's route
plan, whether empty or not. -/
theorem c5_route_plan_passthrough (r : HttpResponse JupiterQuoteResponse)
    (req : JupiterQuoteRequest) (W : JupiterQuoteResponse) (q : JupiterQuote)
    (hdec : r.decoded = .ok W)
    (hok : get_quote (.got r) req = .ok q) :
    q.route_plan = W.route_plan := by
  obtain ⟨-, inAmt, outAmt, pip, -, -, -, hq⟩ := get_quote_ok_inversion hdec hok
  rw [hq]

/-- Witness for the amended C5 at the empty-route fixture. -/
theorem c5_witness : c5_quote.route_plan = c5_wire.route_plan :=
  c5_route_plan_passthrough ⟨200, none, "", .ok c5_wire⟩ c4_quote_req c5_wire c5_quote rfl
    (get_quote_c5_wire _)

/-- Counterexample to C4: build-swap-transaction and list-tokens do *not*
classify non-success responses the way get-quote does.  On the same 429
response with `retry-after: 12` and body `"b"`, get-quote fails with the
Error Classifier's diagnostic while the other two fail with the raw body
text only. -/
theorem c4_counterexample :
    get_swap_transaction (.got ⟨429, some "12", "b", .error "d"⟩) c4_swap_req =
      .error (.api "Jupiter swap request failed: b") ∧
    get_tokens (.got ⟨429, some "12", "b", .error "d"⟩) =
      .error (.api "Jupiter tokens request failed: b") ∧
    get_quote (.got ⟨429, some "12", "b", .error "d"⟩) c4_quote_req =
      .error (.api
        "Jupiter quote request failed: Rate Limited (429): b. Retry after 12 seconds.") ∧
    "Jupiter swap request failed: b" ≠
      "Jupiter swap request failed: " ++ handle_error_response 429 (some "12") "b" :=
  ⟨rfl, rfl, rfl, by decide⟩

/-- C4 (amended): on a non-success status, get-quote hands the raw response
to the Error Classifier, while build-swap-transaction and list-tokens fail
with the raw body text and never consult the classifier. -/
theorem c4_error_paths (r1 : HttpResponse JupiterSwapResponse)
    (r2 : HttpResponse (List (String × TokenInfo)))
    (r3 : HttpResponse JupiterQuoteResponse)
    (req1 : JupiterSwapRequest) (req3 : JupiterQuoteRequest)
    (h1 : isSuccessStatus r1.status = false)
    (h2 : isSuccessStatus r2.status = false)
    (h3 : isSuccessStatus r3.status = false) :
    get_swap_transaction (.got r1) req1 =
      .error (.api ("Jupiter swap request failed: " ++ r1.body)) ∧
    get_tokens (.got r2) =
      .error (.api ("Jupiter tokens request failed: " ++ r2.body)) ∧
    get_quote (.got r3) req3 =
      .error (.api ("Jupiter quote request failed: " ++
        handle_error_response r3.status r3.retry_after r3.body)) := by
  refine ⟨?_, ?_, ?_⟩
  · simp [get_swap_transaction, h1]
  · simp [get_tokens, h2]
  · simp [get_quote, h3]

/-- Witness for the amended C4 at a concrete 500 response. -/
theorem c4_witness :
    get_swap_transaction (.got ⟨500, none, "oops", .error "d"⟩) c4_swap_req =
      .error (.api "Jupiter swap request failed: oops") := by
  have h := c4_error_paths (⟨500, none, "oops", .error "d"⟩ : HttpResponse JupiterSwapResponse)
    (⟨500, none, "x", .error "d"⟩ : HttpResponse (List (String × TokenInfo)))
    (⟨500, none, "y", .error "d"⟩ : HttpResponse JupiterQuoteResponse)
    c4_swap_req c4_quote_req rfl rfl rfl
  exact h.1

/-- C6: client construction fails with a `ConfigurationError` at
construction time exactly when some header value fails `HeaderValue`
construction — the failure is raised inside `new_with_config` (the source
panics on `.parse().unwrap()` there), never deferred to a later call. -/
theorem c6_header_failure_is_config_error (base_url : String)
    (api_key : Option String) (api_type : JupiterApiType)
    (integrator_fee : Option IntegratorFee)
    (yellowstone_config : Option YellowstoneConfig) :
    new_with_config base_url api_key api_type integrator_fee yellowstone_config =
      .error .invalidHeaderValue ↔
    ∃ p ∈ headerCandidates api_key api_type integrator_fee yellowstone_config,
      isValidHeaderValue p.2 = false := by
  unfold new_with_config
  by_cases h : (headerCandidates api_key api_type integrator_fee yellowstone_config).all
      (fun p => isValidHeaderValue p.2)
  · rw [if_pos h]
    rw [List.all_eq_true] at h
    constructor
    · intro hc
      simp at hc
    · rintro ⟨p, hp, hv⟩
      rw [h p hp] at hv
      cases hv
  · rw [if_neg h]
    rw [List.all_eq_true] at h
    push_neg at h
    obtain ⟨p, hp, hv⟩ := h
    exact ⟨fun _ => ⟨p, hp, by simpa using hv⟩, fun _ => rfl⟩

/-- C8: for every tier and every combination of the optional configs, the
constructed client's header-name set is exactly the implied set: the bearer
header iff a credential was supplied, the integrator-fee pair iff a fee
config was supplied, the Yellowstone pair iff a feed config was supplied,
and the tier marker, content type and client identifier always — no more,
no fewer. -/
theorem c8_exact_header_set (base_url : String) (api_key : Option String)
    (api_type : JupiterApiType) (integrator_fee : Option IntegratorFee)
    (yellowstone_config : Option YellowstoneConfig) (c : JupiterClient)
    (h : new_with_config base_url api_key api_type integrator_fee yellowstone_config = .ok c)
    (name : String) :
    name ∈ c.headers.map Prod.fst ↔
      (name = "X-API-Type" ∨ name = "Content-Type" ∨ name = "User-Agent" ∨
       (name = "Authorization" ∧ api_key ≠ none) ∨
       ((name = "X-Integrator-Fee" ∨ name = "X-Integrator-Account") ∧
         integrator_fee ≠ none) ∨
       ((name = "X-Yellowstone-Endpoint" ∨ name = "X-Yellowstone-Token") ∧
         yellowstone_config ≠ none)) := by
  have hc : c.headers =
      (headerCandidates api_key api_type integrator_fee yellowstone_config).foldl
        (fun acc p => insertHeader acc p.1 p.2) [] := by
    unfold new_with_config at h
    by_cases hall : (headerCandidates api_key api_type integrator_fee
        yellowstone_config).all (fun p => isValidHeaderValue p.2)
    · rw [if_pos hall] at h
      simp only [Except.ok.injEq] at h
      rw [← h]
    · rw [if_neg hall] at h
      cases h
  rw [hc, mem_foldl_insertHeader]
  simp only [List.map_nil, List.not_mem_nil, false_or]
  cases api_key <;> cases integrator_fee <;> cases yellowstone_config <;>
    simp [headerCandidates] <;> tauto

/-- Witness for C8: with a credential and a feed config but no integrator
fee, the bearer header is attached. -/
theorem c8_witness : "Authorization" ∈ c8_client.headers.map Prod.fst := by
  have h := c8_exact_header_set "https://api.example" (some "key1") .Pro none
    (some { grpc_endpoint := "grpc.example", x_token := "tok" }) c8_client
    (by decide) "Authorization"
  exact h.mpr (by simp)
